import Mathlib

/-!
Shallow embedding of the Tosshin scraper (keyword data extraction and
xlsx report writing) and proofs of the specification's claims about it.

Python strings are modelled as `List Char`; the browser and the two
external libraries (selenium, xlsxwriter) are modelled by explicit
outcome parameters and an effect trace.
-/

namespace Tosshin

/-! ## Python string operations -/

/-- Whitespace predicate used by Python's `str.strip()` and `str.split()`
(restricted to the ASCII whitespace characters). -/
def pyIsSpace (c : Char) : Bool :=
  c = ' ' || c = '\t' || c = '\n' || c = '\r' || c = '\x0b' || c = '\x0c'

/-- Python `s.strip()`: drop leading and trailing whitespace. -/
def pyStrip (s : List Char) : List Char :=
  ((s.dropWhile pyIsSpace).reverse.dropWhile pyIsSpace).reverse

/-- One `foldr` step of Python `s.split()`: a whitespace character opens a
fresh (empty) chunk, a non-whitespace character is prepended to the current
chunk. -/
def addChar (c : Char) (acc : List (List Char)) : List (List Char) :=
  if pyIsSpace c then [] :: acc
  else
    match acc with
    | [] => [[c]]
    | w :: ws => (c :: w) :: ws

/-- Keep only the non-empty chunks. -/
def chunkFilter (acc : List (List Char)) : List (List Char) :=
  acc.filter (fun w => !w.isEmpty)

/-- Python `s.split()` with no argument: split on whitespace runs and
discard empty pieces. -/
def pySplit (s : List Char) : List (List Char) :=
  chunkFilter (s.foldr addChar [])

/-- Python `" ".join(ws)`. -/
def pyJoinSpace (ws : List (List Char)) : List Char :=
  List.intercalate [' '] ws

/-- The head chunk of the accumulator is absent or empty. -/
def headEmpty : List (List Char) → Prop
  | [] => True
  | w :: _ => w = []

/-- Two accumulators are interchangeable for the rest of the split when they
hold the same non-empty chunks and agree on whether the current chunk is
still empty. -/
def ChunkEquiv (a b : List (List Char)) : Prop :=
  chunkFilter a = chunkFilter b ∧ (headEmpty a ↔ headEmpty b)

/-! ## Data model (tosshin_xlsx_writer.py) -/

/-- The `TosshinData` enum: the columns of the Tosshin worksheet. -/
inductive TosshinData
  | MAKER
  | KEYWORD
  | WEIGHT
  | PRICE
  | URL
deriving DecidableEq, Repr

/-- The `column` of each member's `DataAttr`, as assigned in the source
(`MAKER ↦ 0, KEYWORD ↦ 1, WEIGHT ↦ 2, PRICE ↦ 3`; `URL` has none). -/
def TosshinData.column : TosshinData → Option Nat
  | .MAKER => some 0
  | .KEYWORD => some 1
  | .WEIGHT => some 2
  | .PRICE => some 3
  | .URL => none

/-- Modelled from the spec: `my_libs.utils.get_enum_col` is not in the
repository sources; it returns the column index of the enum member's
`DataAttr` (the column assignments themselves are in the source). -/
def get_enum_col (k : TosshinData) : Nat :=
  (TosshinData.column k).getD 0

/-- Modelled from the spec: `my_libs.utils.get_enum_headers_row` is not in
the repository sources; per the spec the header row is
Maker, Keyword, Weight, Price, URL. -/
def get_enum_headers_row : List (List Char) :=
  ["Maker".data, "Keyword".data, "Weight".data, "Price".data, "URL".data]

/-- The `dict[TosshinData, Any]` produced by extraction: a partial map from
enum keys to strings. -/
def TosshinDict : Type := TosshinData → Option (List Char)

/-- Python dict update `d[k] = v`. -/
def dictSet (d : TosshinDict) (k : TosshinData) (v : List Char) : TosshinDict :=
  fun k2 => if k2 = k then some v else d k2

/-- One written worksheet cell: position, text, optional hyperlink target and
whether the currency format was applied. -/
structure Cell where
  row : Nat
  col : Nat
  val : List Char
  url : Option (List Char)
  currency : Bool
deriving DecidableEq, Repr

/-- The `MyTosshinExcel` state: the workbook file path, the append-only log
of written cells of the "Tosshin Data" worksheet, and `row_count`. -/
structure Workbook where
  path : List Char
  cells : List Cell
  row_count : Nat
deriving DecidableEq, Repr

/-- Observable side effects of the pipeline, in program order. -/
inductive Effect
  | logInfo
  | logWarning
  | logError
  | navigate (url : List Char)
  | screenshotFile (path : List Char)
  | createFolder (path : List Char)
  | createWorkbookFile (path : List Char)
  | prompt
deriving DecidableEq, Repr

/-- `os.path.join` with exactly two components. -/
def pathJoin (a b : List Char) : List Char :=
  a ++ ['/'] ++ b

/-- `worksheet.write_row(row, startCol, vals, fmt)`: one cell per value, at
consecutive columns. -/
def write_row_cells (row startCol : Nat) (vals : List (List Char)) : List Cell :=
  vals.enum.map (fun p =>
    { row := row, col := startCol + p.1, val := p.2, url := none, currency := false })

/-- `MyTosshinExcel.add_headers`: write the header row at worksheet row 0 and
increment `row_count`. -/
def add_headers (wb : Workbook) : Workbook :=
  { wb with
    cells := wb.cells ++ write_row_cells 0 0 get_enum_headers_row,
    row_count := wb.row_count + 1 }

/-- `MyTosshinExcel.create_workbook`: build the output path
`<output_dir>/Tosshin data.xlsx`, log, and create the workbook. -/
def create_workbook (output_dir : List Char) : List Effect × List Char :=
  let output_file := pathJoin output_dir ("Tosshin data.xlsx").data
  ([Effect.logInfo, Effect.createWorkbookFile output_file, Effect.logInfo],
   output_file)

/-- `MyTosshinExcel.__init__`: create the workbook, add the worksheet, set
`row_count = 0` and call `add_headers`. -/
def mkTosshinExcel (output_dir : List Char) : List Effect × Workbook :=
  let c := create_workbook output_dir
  (c.1, add_headers { path := c.2, cells := [], row_count := 0 })

/-- Modelled from the spec: `my_libs.utils.write_data` is not in the
repository sources; per the spec it writes the value of `data[data_key]` at
the given row and column, hyperlinks it to `data[url_key]` when a url key is
given, and applies the currency format when requested. The `ok` flag models
whether the underlying library call raises. -/
def write_data (row col : Nat) (data : TosshinDict) (data_key : TosshinData)
    (url_key : Option TosshinData) (is_currency : Bool) (ok : Bool) :
    Except Unit Cell :=
  if ok then
    Except.ok { row := row, col := col, val := (data data_key).getD [],
                url := url_key.bind data, currency := is_currency }
  else
    Except.error ()

/-- The `fields_to_write` list of `MyTosshinExcel.write_data_row`. -/
def fields_to_write : List (TosshinData × Option TosshinData) :=
  [(TosshinData.MAKER, some TosshinData.URL),
   (TosshinData.KEYWORD, none),
   (TosshinData.WEIGHT, none),
   (TosshinData.PRICE, none)]

/-- The `for data_key, url_key in fields_to_write` loop: call `write_data`
for each field, stopping at the first raised exception. -/
def writeFields (row : Nat) (data : TosshinDict) (ok : Bool) :
    List (TosshinData × Option TosshinData) → Except Unit (List Cell)
  | [] => Except.ok []
  | fk :: rest =>
    match write_data row (get_enum_col fk.1) data fk.1 fk.2
        (fk.1 == TosshinData.PRICE) ok with
    | Except.error e => Except.error e
    | Except.ok c =>
      match writeFields row data ok rest with
      | Except.error e => Except.error e
      | Except.ok cs => Except.ok (c :: cs)

namespace MyTosshinExcel

/-- `MyTosshinExcel.write_data_row`: write the four data fields at row
`row_count` and on success increment `row_count`; a failure is logged and
re-raised, leaving `row_count` unchanged. -/
def write_data_row (wb : Workbook) (data : TosshinDict) (ok : Bool) :
    List Effect × Except Unit Workbook :=
  match writeFields wb.row_count data ok fields_to_write with
  | Except.ok cs =>
      ([], Except.ok { wb with cells := wb.cells ++ cs,
                               row_count := wb.row_count + 1 })
  | Except.error e => ([Effect.logError], Except.error e)

end MyTosshinExcel

/-- One close attempt inside `MyTosshinExcel.save_workbook`'s retry loop. -/
inductive CloseResult
  | success
  | eaccesError
  | otherOSError
  | otherError
deriving DecidableEq, Repr

/-- `MyTosshinExcel.save_workbook`'s `while True` retry loop, run against a
list of successive `workbook.close()` outcomes: a success logs and exits;
an `OSError` with errno `EACCES`, any other `OSError`, and any other
exception each log an error, prompt the user, and retry. The boolean
records whether the loop exited within the given attempts. -/
def save_workbook : List CloseResult → List Effect × Bool
  | [] => ([], false)
  | CloseResult.success :: _ => ([Effect.logInfo], true)
  | CloseResult.eaccesError :: rest =>
      let r := save_workbook rest
      (Effect.logError :: Effect.prompt :: r.1, r.2)
  | CloseResult.otherOSError :: rest =>
      let r := save_workbook rest
      (Effect.logError :: Effect.prompt :: r.1, r.2)
  | CloseResult.otherError :: rest =>
      let r := save_workbook rest
      (Effect.logError :: Effect.prompt :: r.1, r.2)

/-! ## Data extraction (tosshin_data_extraction.py) -/

/-- The raw `.text` of the three extracted cells of the first row of the
OEM table. -/
structure FirstRowT where
  makerRaw : List Char
  weightRaw : List Char
  priceRaw : List Char
deriving DecidableEq, Repr

/-- What the result page holds for a keyword: the "Nothing found!" marker,
a well-formed result table with a first row, or a page on which one of the
element lookups raises (missing table, missing row, selector mismatch). -/
inductive PageOutcome
  | noResults
  | found (row : FirstRowT)
  | extractError
deriving DecidableEq, Repr

/-- The environment one keyword is processed in: whether `driver.get`
succeeds, what the result page holds, and whether the worksheet writes of
`write_data_row` succeed. -/
structure KeywordEnv where
  navOk : Bool
  page : PageOutcome
  writeOk : Bool
deriving DecidableEq, Repr

/-- Modelled from the spec: `my_libs.utils.build_tosshin_url` is not in the
repository sources and the spec places URL construction out of scope; the
claims never inspect the URL's value, only whether it is set. -/
def build_tosshin_url (keyword : List Char) : List Char :=
  ("tosshin-search?q=").data ++ keyword

/-- Modelled from the spec: `my_libs.utils.create_subfolder` is not in the
repository sources; per the spec it creates the subfolder of the output
directory and returns its path. -/
def create_subfolder (base name : List Char) : List Effect × List Char :=
  ([Effect.createFolder (pathJoin base name)], pathJoin base name)

/-- Modelled from the spec: `my_libs.utils.take_screenshot` is not in the
repository sources; per the spec the screenshot file is written for every
processed keyword, regardless of match success. -/
def take_screenshot (path : List Char) : List Effect :=
  [Effect.screenshotFile path]

/-- `fetch_data`: check the "Nothing found!" marker, then read the first row
of the OEM table; any exception of the element lookups is caught and logged,
returning `None`. On success the maker text is stripped and its internal
whitespace collapsed, weight and price are stripped, and the dict holds the
KEYWORD, MAKER, WEIGHT and PRICE keys (URL is not set). -/
def fetch_data (page : PageOutcome) (keyword : List Char) :
    List Effect × Option TosshinDict :=
  match page with
  | PageOutcome.noResults => ([Effect.logWarning], none)
  | PageOutcome.extractError => ([Effect.logError], none)
  | PageOutcome.found row =>
      let maker := pyJoinSpace (pySplit (pyStrip row.makerRaw))
      let weight := pyStrip row.weightRaw
      let price := pyStrip row.priceRaw
      ([Effect.logInfo],
       some (fun k =>
         match k with
         | TosshinData.KEYWORD => some keyword
         | TosshinData.MAKER => some maker
         | TosshinData.WEIGHT => some weight
         | TosshinData.PRICE => some price
         | TosshinData.URL => none))

/-- `scrape_keyword_data`: build the URL, log, navigate (a navigation
failure raises and is not caught here), fetch the data, take the screenshot,
and if a dict was returned set its URL key and write the row (a row-write
failure re-raises out of this function); otherwise log a warning. -/
def scrape_keyword_data (env : KeywordEnv) (keyword : List Char)
    (wb : Workbook) (screenshot_folder_path : List Char) :
    List Effect × Except Unit Workbook :=
  let url := build_tosshin_url keyword
  if env.navOk then
    let fd := fetch_data env.page keyword
    let screenshot_path :=
      pathJoin screenshot_folder_path (keyword ++ (" screenshot.png").data)
    let ssEff := take_screenshot screenshot_path
    match fd.2 with
    | some d =>
        let d2 := dictSet d TosshinData.URL url
        let w := MyTosshinExcel.write_data_row wb d2 env.writeOk
        (Effect.logInfo :: Effect.navigate url :: (fd.1 ++ ssEff ++ w.1), w.2)
    | none =>
        (Effect.logInfo :: Effect.navigate url :: (fd.1 ++ ssEff ++ [Effect.logWarning]),
         Except.ok wb)
  else
    ([Effect.logInfo, Effect.navigate url], Except.error ())

/-- The `for search_keyword in keywords` loop of `read_keywords`: strip each
keyword, skip it with a warning when empty, otherwise log and run
`scrape_keyword_data`; an exception raised there is not caught and aborts
the loop. -/
def read_keywords_loop (ks : List (List Char × KeywordEnv))
    (wb : Workbook) (screenshot_folder_path : List Char) :
    List Effect × Except Unit Workbook :=
  match ks with
  | [] => ([], Except.ok wb)
  | (kw, env) :: rest =>
      let k := pyStrip kw
      if k.isEmpty then
        let r := read_keywords_loop rest wb screenshot_folder_path
        (Effect.logWarning :: r.1, r.2)
      else
        let s := scrape_keyword_data env k wb screenshot_folder_path
        match s.2 with
        | Except.error e => (Effect.logInfo :: s.1, Except.error e)
        | Except.ok wb2 =>
            let r := read_keywords_loop rest wb2 screenshot_folder_path
            (Effect.logInfo :: (s.1 ++ r.1), r.2)

/-- `read_keywords`: on an empty keyword list log a warning and return at
once, creating nothing; otherwise create the workbook and the screenshot
subfolder and run the keyword loop (the final `save_workbook` call is
modelled separately by `save_workbook`). Returns the workbook reached, or
`none` for the empty list, or the propagated exception. -/
def read_keywords (ks : List (List Char × KeywordEnv)) (output_folder : List Char) :
    List Effect × Except Unit (Option Workbook) :=
  if ks.isEmpty then
    ([Effect.logWarning], Except.ok none)
  else
    let w := mkTosshinExcel output_folder
    let sf := create_subfolder output_folder ("Tosshin Screenshots").data
    let l := read_keywords_loop ks w.2 sf.2
    match l.2 with
    | Except.error e =>
        (Effect.logInfo :: (w.1 ++ sf.1 ++ l.1), Except.error e)
    | Except.ok wb2 =>
        (Effect.logInfo :: (w.1 ++ sf.1 ++ l.1), Except.ok (some wb2))

/-! ## Derived forms -/

/-- The dict returned by `fetch_data` on a well-formed result table. -/
def fetchDictFound (r : FirstRowT) (keyword : List Char) : TosshinDict :=
  fun k =>
    match k with
    | TosshinData.KEYWORD => some keyword
    | TosshinData.MAKER => some (pyJoinSpace (pySplit (pyStrip r.makerRaw)))
    | TosshinData.WEIGHT => some (pyStrip r.weightRaw)
    | TosshinData.PRICE => some (pyStrip r.priceRaw)
    | TosshinData.URL => none

/-- The four cells one successful `write_data_row` call appends. -/
def dataRowCells (row : Nat) (data : TosshinDict) : List Cell :=
  [ { row := row, col := 0, val := (data TosshinData.MAKER).getD [],
      url := data TosshinData.URL, currency := false },
    { row := row, col := 1, val := (data TosshinData.KEYWORD).getD [],
      url := none, currency := false },
    { row := row, col := 2, val := (data TosshinData.WEIGHT).getD [],
      url := none, currency := false },
    { row := row, col := 3, val := (data TosshinData.PRICE).getD [],
      url := none, currency := true } ]

/-- Every cell of the worksheet sits strictly below `row_count`. -/
abbrev RowsBelowCount (wb : Workbook) : Prop :=
  ∀ c ∈ wb.cells, c.row < wb.row_count

/-- Recognizer for screenshot-file effects. -/
def isScreenshotEffect : Effect → Bool
  | Effect.screenshotFile _ => true
  | _ => false

/-! ## String lemmas -/

theorem chunkFilter_replicate (n : Nat) :
    chunkFilter (List.replicate n []) = [] := by
  induction n with
  | zero => rfl
  | succ n ih => simp [chunkFilter, List.replicate]

theorem addChar_equiv (c : Char) (a b : List (List Char))
    (h : ChunkEquiv a b) : ChunkEquiv (addChar c a) (addChar c b) := by
  obtain ⟨hf, hh⟩ := h
  cases hs : pyIsSpace c with
  | true =>
    refine ⟨?_, ?_⟩
    · simpa [addChar, hs, chunkFilter] using hf
    · simp [addChar, hs, headEmpty]
  | false =>
    cases a with
    | nil =>
      cases b with
      | nil => exact ⟨rfl, Iff.rfl⟩
      | cons w2 t2 =>
        have hw2 : w2 = [] := by
          have := hh.mp (by trivial)
          simpa [headEmpty] using this
        subst hw2
        have ht2 : chunkFilter t2 = [] := by
          have := hf.symm
          simpa [chunkFilter] using this
        have hall : ∀ a ∈ t2, a = [] := by
          intro a ha
          by_contra hne
          have hmem : a ∈ chunkFilter t2 := by
            simp [chunkFilter, List.mem_filter, ha, List.isEmpty_iff, hne]
          rw [ht2] at hmem
          simp at hmem
        refine ⟨?_, ?_⟩
        · simpa [addChar, hs, chunkFilter] using hall
        · simp [addChar, hs, headEmpty]
    | cons w1 t1 =>
      cases b with
      | nil =>
        have hw1 : w1 = [] := by
          have := hh.mpr (by trivial)
          simpa [headEmpty] using this
        subst hw1
        have ht1 : chunkFilter t1 = [] := by
          simpa [chunkFilter] using hf
        have hall : ∀ a ∈ t1, a = [] := by
          intro a ha
          by_contra hne
          have hmem : a ∈ chunkFilter t1 := by
            simp [chunkFilter, List.mem_filter, ha, List.isEmpty_iff, hne]
          rw [ht1] at hmem
          simp at hmem
        refine ⟨?_, ?_⟩
        · simpa [addChar, hs, chunkFilter] using hall
        · simp [addChar, hs, headEmpty]
      | cons w2 t2 =>
        by_cases hw1 : w1 = []
        · subst hw1
          have hw2 : w2 = [] := by
            have := hh.mp (by simp [headEmpty])
            simpa [headEmpty] using this
          subst hw2
          have ht : chunkFilter t1 = chunkFilter t2 := by
            simpa [chunkFilter] using hf
          refine ⟨?_, ?_⟩
          · simpa [addChar, hs, chunkFilter] using ht
          · simp [addChar, hs, headEmpty]
        · have hw2 : w2 ≠ [] := by
            intro h2
            subst h2
            exact hw1 (by simpa [headEmpty] using hh.mpr (by simp [headEmpty]))
          have hf2 : w1 :: chunkFilter t1 = w2 :: chunkFilter t2 := by
            have e1 : chunkFilter (w1 :: t1) = w1 :: chunkFilter t1 := by
              simp [chunkFilter, List.isEmpty_iff, hw1]
            have e2 : chunkFilter (w2 :: t2) = w2 :: chunkFilter t2 := by
              simp [chunkFilter, List.isEmpty_iff, hw2]
            rw [← e1, ← e2]; exact hf
          have hw : w1 = w2 := (List.cons.injEq _ _ _ _ ▸ hf2).1
          have ht : chunkFilter t1 = chunkFilter t2 :=
            (List.cons.injEq _ _ _ _ ▸ hf2).2
          subst hw
          refine ⟨?_, ?_⟩
          · simpa [addChar, hs, chunkFilter, List.isEmpty_iff] using ht
          · simp [addChar, hs, headEmpty]

theorem foldr_addChar_equiv (l : List Char) (a b : List (List Char))
    (h : ChunkEquiv a b) :
    ChunkEquiv (l.foldr addChar a) (l.foldr addChar b) := by
  induction l with
  | nil => exact h
  | cons c l ih => exact addChar_equiv c _ _ ih

theorem foldr_addChar_spaces (s : List Char) (acc : List (List Char))
    (h : ∀ c ∈ s, pyIsSpace c = true) :
    s.foldr addChar acc = List.replicate s.length [] ++ acc := by
  induction s with
  | nil => rfl
  | cons c s ih =>
    have hc : pyIsSpace c = true := h c (by simp)
    have ih2 := ih (fun x hx => h x (by simp [hx]))
    simp [addChar, hc, ih2, List.replicate]

theorem chunkEquiv_spaces (s : List Char)
    (h : ∀ c ∈ s, pyIsSpace c = true) :
    ChunkEquiv (s.foldr addChar []) [] := by
  rw [foldr_addChar_spaces s [] h]
  refine ⟨?_, ?_⟩
  · simpa using chunkFilter_replicate s.length
  · cases hn : s.length with
    | zero => simp [List.replicate, headEmpty]
    | succ n => simp [List.replicate, headEmpty]

theorem pySplit_append_spaces (l s : List Char)
    (h : ∀ c ∈ s, pyIsSpace c = true) :
    pySplit (l ++ s) = pySplit l := by
  unfold pySplit
  rw [List.foldr_append]
  exact (foldr_addChar_equiv l _ [] (chunkEquiv_spaces s h)).1

theorem pySplit_spaces_append (s l : List Char)
    (h : ∀ c ∈ s, pyIsSpace c = true) :
    pySplit (s ++ l) = pySplit l := by
  unfold pySplit
  rw [List.foldr_append, foldr_addChar_spaces s _ h]
  simp [chunkFilter, List.filter_append, List.filter_replicate]

/-- Splitting after stripping gives the same pieces as splitting the raw
string: `s.strip().split() == s.split()`. -/
theorem pySplit_pyStrip (s : List Char) : pySplit (pyStrip s) = pySplit s := by
  have h1 : pySplit s = pySplit (s.dropWhile pyIsSpace) := by
    conv_lhs => rw [← List.takeWhile_append_dropWhile (p := pyIsSpace) (l := s)]
    exact pySplit_spaces_append _ _ (fun c hc => List.mem_takeWhile_imp hc)
  set u := s.dropWhile pyIsSpace with hu
  have h2 : u = (u.reverse.dropWhile pyIsSpace).reverse ++
      (u.reverse.takeWhile pyIsSpace).reverse := by
    have htd := List.takeWhile_append_dropWhile (p := pyIsSpace) (l := u.reverse)
    calc u = u.reverse.reverse := (List.reverse_reverse u).symm
      _ = (u.reverse.takeWhile pyIsSpace ++ u.reverse.dropWhile pyIsSpace).reverse := by
          rw [htd]
      _ = (u.reverse.dropWhile pyIsSpace).reverse ++
          (u.reverse.takeWhile pyIsSpace).reverse := by
          rw [List.reverse_append]
  have h3 : pySplit u = pySplit ((u.reverse.dropWhile pyIsSpace).reverse) := by
    conv_lhs => rw [h2]
    refine pySplit_append_spaces _ _ ?_
    intro c hc
    exact List.mem_takeWhile_imp (List.mem_reverse.mp hc)
  rw [h1, h3]
  rfl

/-! ## Workbook and pipeline lemmas -/

theorem fetch_data_found (r : FirstRowT) (k : List Char) :
    fetch_data (PageOutcome.found r) k =
      ([Effect.logInfo], some (fetchDictFound r k)) := rfl

theorem writeFields_true (row : Nat) (data : TosshinDict) :
    writeFields row data true fields_to_write =
      Except.ok (dataRowCells row data) := rfl

theorem write_data_row_true (wb : Workbook) (data : TosshinDict) :
    MyTosshinExcel.write_data_row wb data true =
      ([], Except.ok { wb with cells := wb.cells ++ dataRowCells wb.row_count data,
                               row_count := wb.row_count + 1 }) := by
  simp [MyTosshinExcel.write_data_row, writeFields_true]

theorem write_data_row_false (wb : Workbook) (data : TosshinDict) :
    MyTosshinExcel.write_data_row wb data false =
      ([Effect.logError], Except.error ()) := rfl

theorem write_row_cells_row (row sc : Nat) (vals : List (List Char))
    (c : Cell) (h : c ∈ write_row_cells row sc vals) : c.row = row := by
  unfold write_row_cells at h
  simp only [List.mem_map] at h
  obtain ⟨p, _, hp⟩ := h
  rw [← hp]

theorem scrape_keyword_data_ok (env : KeywordEnv) (k : List Char)
    (wb : Workbook) (ss : List Char) (r : FirstRowT)
    (hnav : env.navOk = true) (hpage : env.page = PageOutcome.found r)
    (hwr : env.writeOk = true) :
    (scrape_keyword_data env k wb ss).2 = Except.ok
      { wb with
        cells := (wb.cells ++ dataRowCells wb.row_count
          (dictSet (fetchDictFound r k) TosshinData.URL (build_tosshin_url k))),
        row_count := wb.row_count + 1 } := by
  simp [scrape_keyword_data, hnav, hpage, fetch_data_found, hwr, write_data_row_true]

theorem scrape_keyword_data_extract_fails (env : KeywordEnv) (k : List Char)
    (wb : Workbook) (ss : List Char)
    (hnav : env.navOk = true) (hpage : env.page = PageOutcome.extractError) :
    scrape_keyword_data env k wb ss =
      (Effect.logInfo :: Effect.navigate (build_tosshin_url k) ::
        ([Effect.logError] ++
         [Effect.screenshotFile (pathJoin ss (k ++ (" screenshot.png").data))] ++
         [Effect.logWarning]),
       Except.ok wb) := by
  simp [scrape_keyword_data, hnav, hpage, fetch_data, take_screenshot]

theorem scrape_keyword_data_write_fails (env : KeywordEnv) (k : List Char)
    (wb : Workbook) (ss : List Char) (r : FirstRowT)
    (hnav : env.navOk = true) (hpage : env.page = PageOutcome.found r)
    (hwr : env.writeOk = false) :
    (scrape_keyword_data env k wb ss).2 = Except.error () := by
  simp [scrape_keyword_data, hnav, hpage, fetch_data_found, hwr, write_data_row_false]

theorem scrape_keyword_data_nav_fails (env : KeywordEnv) (k : List Char)
    (wb : Workbook) (ss : List Char) (hnav : env.navOk = false) :
    scrape_keyword_data env k wb ss =
      ([Effect.logInfo, Effect.navigate (build_tosshin_url k)],
       Except.error ()) := by
  simp [scrape_keyword_data, hnav]

theorem read_keywords_loop_all_ok (ks : List (List Char × KeywordEnv))
    (wb : Workbook) (ss : List Char)
    (h : ∀ x ∈ ks, (pyStrip x.1).isEmpty = false ∧ x.2.navOk = true ∧
        (∃ r, x.2.page = PageOutcome.found r) ∧ x.2.writeOk = true) :
    ∃ wb2, (read_keywords_loop ks wb ss).2 = Except.ok wb2 ∧
      wb2.row_count = wb.row_count + ks.length := by
  induction ks generalizing wb with
  | nil => exact ⟨wb, rfl, by simp [read_keywords_loop]⟩
  | cons x rest ih =>
    obtain ⟨kw, env⟩ := x
    obtain ⟨hne, hnav, ⟨r, hpage⟩, hwr⟩ := h (kw, env) (by simp)
    have hscr := scrape_keyword_data_ok env (pyStrip kw) wb ss r hnav hpage hwr
    obtain ⟨wb2, hloop, hrc⟩ := ih
      { wb with
        cells := (wb.cells ++ dataRowCells wb.row_count
          (dictSet (fetchDictFound r (pyStrip kw)) TosshinData.URL
            (build_tosshin_url (pyStrip kw)))),
        row_count := wb.row_count + 1 }
      (fun y hy => h y (by simp [hy]))
    refine ⟨wb2, ?_, ?_⟩
    · simp [read_keywords_loop, hne, hscr, hloop]
    · rw [hrc]
      show wb.row_count + 1 + rest.length = wb.row_count + (rest.length + 1)
      omega

/-! ## The claims -/

/-- C1, counterexample: with two keywords where the first keyword's row
write fails (the page has a well-formed table but the worksheet write
raises), the exception escapes the per-keyword step, the whole run aborts
with the exception, and the second keyword is never navigated to — the
failure is neither contained to the keyword's step nor does processing
continue to the next keyword. -/
theorem C1_counterexample_write_failure_aborts :
    (read_keywords
      [(("a").data,
        (⟨true, PageOutcome.found ⟨("m").data, ("w").data, ("p").data⟩, false⟩ : KeywordEnv)),
       (("b").data,
        (⟨true, PageOutcome.found ⟨("m").data, ("w").data, ("p").data⟩, true⟩ : KeywordEnv))]
      (("out").data)).2 = Except.error () ∧
    Effect.navigate (build_tosshin_url (("b").data)) ∉
      (read_keywords
        [(("a").data,
          (⟨true, PageOutcome.found ⟨("m").data, ("w").data, ("p").data⟩, false⟩ : KeywordEnv)),
         (("b").data,
          (⟨true, PageOutcome.found ⟨("m").data, ("w").data, ("p").data⟩, true⟩ : KeywordEnv))]
        (("out").data)).1 :=
  ⟨rfl, by decide⟩

/-- C1, amended: an extraction failure while processing one keyword is
caught and logged inside the per-keyword step and processing continues to
the next keyword with the workbook unchanged; a row-write failure and a
navigation failure are not caught inside the per-keyword step and abort
processing of the remaining keywords. -/
theorem C1_failure_handling_per_keyword :
    (∀ (kw : List Char) (env : KeywordEnv)
        (rest : List (List Char × KeywordEnv)) (wb : Workbook) (ss : List Char),
      env.navOk = true → env.page = PageOutcome.extractError →
      (pyStrip kw).isEmpty = false →
      Effect.logError ∈ (read_keywords_loop ((kw, env) :: rest) wb ss).1 ∧
      (read_keywords_loop ((kw, env) :: rest) wb ss).2 =
        (read_keywords_loop rest wb ss).2) ∧
    (∀ (kw : List Char) (env : KeywordEnv)
        (rest : List (List Char × KeywordEnv)) (wb : Workbook) (ss : List Char)
        (r : FirstRowT),
      env.navOk = true → env.page = PageOutcome.found r → env.writeOk = false →
      (pyStrip kw).isEmpty = false →
      (read_keywords_loop ((kw, env) :: rest) wb ss).2 = Except.error ()) ∧
    (∀ (kw : List Char) (env : KeywordEnv)
        (rest : List (List Char × KeywordEnv)) (wb : Workbook) (ss : List Char),
      env.navOk = false → (pyStrip kw).isEmpty = false →
      (read_keywords_loop ((kw, env) :: rest) wb ss).2 = Except.error ()) := by
  refine ⟨?_, ?_, ?_⟩
  · intro kw env rest wb ss hnav hpage hne
    have hscr := scrape_keyword_data_extract_fails env (pyStrip kw) wb ss hnav hpage
    constructor
    · simp [read_keywords_loop, hne, hscr]
    · simp [read_keywords_loop, hne, hscr]
  · intro kw env rest wb ss r hnav hpage hwr hne
    have hscr := scrape_keyword_data_write_fails env (pyStrip kw) wb ss r hnav hpage hwr
    simp [read_keywords_loop, hne, hscr]
  · intro kw env rest wb ss hnav hne
    have hscr := scrape_keyword_data_nav_fails env (pyStrip kw) wb ss hnav
    simp [read_keywords_loop, hne, hscr]

theorem C1_failure_handling_witness :
    Effect.logError ∈ (read_keywords_loop
      [(("a").data, (⟨true, PageOutcome.extractError, true⟩ : KeywordEnv))]
      (⟨("p").data, [], 0⟩ : Workbook) (("s").data)).1 ∧
    (read_keywords_loop
      [(("a").data, (⟨true, PageOutcome.extractError, true⟩ : KeywordEnv))]
      (⟨("p").data, [], 0⟩ : Workbook) (("s").data)).2 =
      (read_keywords_loop [] (⟨("p").data, [], 0⟩ : Workbook) (("s").data)).2 :=
  C1_failure_handling_per_keyword.1 (("a").data)
    ⟨true, PageOutcome.extractError, true⟩ [] ⟨("p").data, [], 0⟩ (("s").data)
    rfl rfl rfl

/-- C2: `row_count` starts at 0, `add_headers` increments it to 1, each
successful `write_data_row` increments it by exactly 1, and for a non-empty
list of distinct non-blank keywords whose extractions and row writes all
succeed, the row count after processing equals the number of keywords
plus one. -/
theorem C2_row_count_after_processing :
    (∀ p : List Char,
      (add_headers { path := p, cells := [], row_count := 0 }).row_count = 1) ∧
    (∀ (wb : Workbook) (data : TosshinDict) (tr : List Effect) (wb2 : Workbook),
      MyTosshinExcel.write_data_row wb data true = (tr, Except.ok wb2) →
      wb2.row_count = wb.row_count + 1) ∧
    (∀ (ks : List (List Char × KeywordEnv)) (folder : List Char),
      ks ≠ [] →
      (∀ x ∈ ks, (pyStrip x.1).isEmpty = false ∧ x.2.navOk = true ∧
        (∃ r, x.2.page = PageOutcome.found r) ∧ x.2.writeOk = true) →
      List.Pairwise (fun a b => a.1 ≠ b.1) ks →
      ∃ wb, (read_keywords ks folder).2 = Except.ok (some wb) ∧
        wb.row_count = ks.length + 1) := by
  refine ⟨fun p => rfl, ?_, ?_⟩
  · intro wb data tr wb2 h
    rw [write_data_row_true] at h
    simp only [Prod.mk.injEq, Except.ok.injEq] at h
    rw [← h.2]
  · intro ks folder hks hall hdist
    cases ks with
    | nil => exact absurd rfl hks
    | cons x rest =>
      obtain ⟨wb2, hloop, hrc⟩ := read_keywords_loop_all_ok (x :: rest)
        (mkTosshinExcel folder).2
        (create_subfolder folder (("Tosshin Screenshots").data)).2 hall
      refine ⟨wb2, ?_, ?_⟩
      · simp [read_keywords, hloop]
      · rw [hrc]
        show 1 + (x :: rest).length = (x :: rest).length + 1
        omega

theorem C2_row_count_witness :
    ∃ wb, (read_keywords
      [(("a").data,
        (⟨true, PageOutcome.found ⟨("m").data, ("w").data, ("p").data⟩, true⟩ : KeywordEnv))]
      (("o").data)).2 = Except.ok (some wb) ∧
      wb.row_count = [(("a").data,
        (⟨true, PageOutcome.found ⟨("m").data, ("w").data, ("p").data⟩, true⟩ : KeywordEnv))].length + 1 :=
  C2_row_count_after_processing.2.2 _ _ (by decide)
    (by
      intro x hx
      rw [List.mem_singleton] at hx
      subst hx
      exact ⟨rfl, rfl, ⟨⟨("m").data, ("w").data, ("p").data⟩, rfl⟩, rfl⟩)
    (by simp)

/-- C3: a fresh workbook's worksheet holds exactly the header row, at
worksheet row 0, columns 0..4, with the header texts, and `row_count` is 1;
the enum columns are Maker=0, Keyword=1, Weight=2, Price=3; and every
successful `write_data_row` appends (after all previously written cells)
exactly four cells in that fixed column order carrying the MAKER, KEYWORD,
WEIGHT and PRICE values. -/
theorem C3_header_first_fixed_columns :
    (∀ dir : List Char,
      ((mkTosshinExcel dir).2.cells.map (fun c => (c.row, c.col))) =
        [(0, 0), (0, 1), (0, 2), (0, 3), (0, 4)] ∧
      (mkTosshinExcel dir).2.cells.map (fun c => c.val) = get_enum_headers_row ∧
      (mkTosshinExcel dir).2.row_count = 1) ∧
    (get_enum_col TosshinData.MAKER = 0 ∧ get_enum_col TosshinData.KEYWORD = 1 ∧
     get_enum_col TosshinData.WEIGHT = 2 ∧ get_enum_col TosshinData.PRICE = 3) ∧
    (∀ (wb : Workbook) (data : TosshinDict),
      MyTosshinExcel.write_data_row wb data true =
        ([], Except.ok { wb with
          cells := (wb.cells ++ dataRowCells wb.row_count data),
          row_count := wb.row_count + 1 }) ∧
      (dataRowCells wb.row_count data).map (fun c => c.col) = [0, 1, 2, 3] ∧
      (dataRowCells wb.row_count data).map (fun c => c.val) =
        [(data TosshinData.MAKER).getD [], (data TosshinData.KEYWORD).getD [],
         (data TosshinData.WEIGHT).getD [], (data TosshinData.PRICE).getD []]) :=
  ⟨fun _dir => ⟨rfl, rfl, rfl⟩, ⟨rfl, rfl, rfl, rfl⟩,
   fun wb data => ⟨write_data_row_true wb data, rfl, rfl⟩⟩

/-- C4: when the result page carries the "nothing found" marker,
`fetch_data` returns `None` (so no data dictionary exists and no URL is set
on any dictionary) and the per-keyword step leaves the workbook unchanged —
no data row is appended. -/
theorem C4_nothing_found_no_row_no_url (env : KeywordEnv) (k : List Char)
    (wb : Workbook) (ss : List Char)
    (hpage : env.page = PageOutcome.noResults) (hnav : env.navOk = true) :
    fetch_data env.page k = ([Effect.logWarning], none) ∧
    (scrape_keyword_data env k wb ss).2 = Except.ok wb := by
  constructor
  · rw [hpage]
    rfl
  · simp [scrape_keyword_data, hnav, hpage, fetch_data, take_screenshot]

theorem C4_nothing_found_witness :
    fetch_data PageOutcome.noResults (("k").data) = ([Effect.logWarning], none) ∧
    (scrape_keyword_data ⟨true, PageOutcome.noResults, true⟩ (("k").data)
      (⟨("p").data, [], 0⟩ : Workbook) (("s").data)).2 =
      Except.ok (⟨("p").data, [], 0⟩ : Workbook) :=
  C4_nothing_found_no_row_no_url ⟨true, PageOutcome.noResults, true⟩
    (("k").data) ⟨("p").data, [], 0⟩ (("s").data) rfl rfl

/-- C5: on a well-formed result table, the maker string in the dict
returned by `fetch_data` equals the space-join of the whitespace-split of
the raw element text (so its internal whitespace is collapsed to single
spaces and it has no leading or trailing whitespace). -/
theorem C5_maker_whitespace_collapsed (r : FirstRowT) (k : List Char) :
    ∃ d, (fetch_data (PageOutcome.found r) k).2 = some d ∧
      d TosshinData.MAKER = some (pyJoinSpace (pySplit r.makerRaw)) := by
  refine ⟨fetchDictFound r k, rfl, ?_⟩
  show some (pyJoinSpace (pySplit (pyStrip r.makerRaw))) = _
  rw [pySplit_pyStrip]

/-- C6: a keyword entry that is empty after stripping contributes exactly
one warning log to the run and nothing else: no navigation, no screenshot,
no row write, and the loop continues on the same workbook. -/
theorem C6_blank_keyword_skipped (kw : List Char) (env : KeywordEnv)
    (rest : List (List Char × KeywordEnv)) (wb : Workbook) (ss : List Char)
    (h : (pyStrip kw).isEmpty = true) :
    read_keywords_loop ((kw, env) :: rest) wb ss =
      (Effect.logWarning :: (read_keywords_loop rest wb ss).1,
       (read_keywords_loop rest wb ss).2) := by
  simp [read_keywords_loop, h]

theorem C6_blank_keyword_witness :
    read_keywords_loop [((" ").data, (⟨true, PageOutcome.noResults, true⟩ : KeywordEnv))]
      (⟨("p").data, [], 0⟩ : Workbook) (("s").data) =
      (Effect.logWarning ::
        (read_keywords_loop [] (⟨("p").data, [], 0⟩ : Workbook) (("s").data)).1,
       (read_keywords_loop [] (⟨("p").data, [], 0⟩ : Workbook) (("s").data)).2) :=
  C6_blank_keyword_skipped ((" ").data) ⟨true, PageOutcome.noResults, true⟩ []
    ⟨("p").data, [], 0⟩ (("s").data) rfl

/-- C7: every keyword whose per-keyword step runs (navigation succeeding)
produces exactly one screenshot-file effect, named
`<keyword> screenshot.png` inside the screenshot folder, whatever the page
outcome and whatever the row write does. -/
theorem C7_exactly_one_screenshot (env : KeywordEnv) (k : List Char)
    (wb : Workbook) (ss : List Char) (hnav : env.navOk = true) :
    (scrape_keyword_data env k wb ss).1.filter isScreenshotEffect =
      [Effect.screenshotFile (pathJoin ss (k ++ (" screenshot.png").data))] := by
  cases hp : env.page with
  | noResults =>
    simp [scrape_keyword_data, hnav, hp, fetch_data, take_screenshot,
      isScreenshotEffect]
  | extractError =>
    simp [scrape_keyword_data, hnav, hp, fetch_data, take_screenshot,
      isScreenshotEffect]
  | found r =>
    cases hw : env.writeOk with
    | true =>
      simp [scrape_keyword_data, hnav, hp, fetch_data_found, hw,
        write_data_row_true, take_screenshot, isScreenshotEffect]
    | false =>
      simp [scrape_keyword_data, hnav, hp, fetch_data_found, hw,
        write_data_row_false, take_screenshot, isScreenshotEffect]

theorem C7_exactly_one_screenshot_witness :
    (scrape_keyword_data ⟨true, PageOutcome.noResults, true⟩ (("k").data)
      (⟨("p").data, [], 0⟩ : Workbook) (("s").data)).1.filter isScreenshotEffect =
      [Effect.screenshotFile (pathJoin (("s").data)
        ((("k").data) ++ (" screenshot.png").data))] :=
  C7_exactly_one_screenshot ⟨true, PageOutcome.noResults, true⟩ (("k").data)
    ⟨("p").data, [], 0⟩ (("s").data) rfl

/-- C8: in the save loop, every failing close attempt — EACCES permission
errors, other OSErrors, and all other exceptions alike — logs an error,
prompts for manual intervention, and retries identically; and the loop
exits exactly when one of the attempts is a successful close. -/
theorem C8_save_retry_until_success :
    (∀ (e : CloseResult) (rest : List CloseResult), e ≠ CloseResult.success →
      save_workbook (e :: rest) =
        (Effect.logError :: Effect.prompt :: (save_workbook rest).1,
         (save_workbook rest).2)) ∧
    (∀ l : List CloseResult,
      (save_workbook l).2 = true ↔ CloseResult.success ∈ l) := by
  constructor
  · intro e rest he
    cases e with
    | success => exact absurd rfl he
    | eaccesError => rfl
    | otherOSError => rfl
    | otherError => rfl
  · intro l
    induction l with
    | nil => simp [save_workbook]
    | cons e rest ih =>
      cases e with
      | success => simp [save_workbook]
      | eaccesError => simpa [save_workbook] using ih
      | otherOSError => simpa [save_workbook] using ih
      | otherError => simpa [save_workbook] using ih

theorem C8_save_retry_witness :
    save_workbook (CloseResult.eaccesError :: [CloseResult.success]) =
      (Effect.logError :: Effect.prompt :: (save_workbook [CloseResult.success]).1,
       (save_workbook [CloseResult.success]).2) :=
  C8_save_retry_until_success.1 CloseResult.eaccesError [CloseResult.success]
    (by decide)

/-- C9: on an empty keyword list, `read_keywords` only logs a warning and
returns: its effect trace is exactly one warning (no workbook file, no
screenshot subfolder, no navigation, no screenshot) and no workbook object
is created. -/
theorem C9_empty_keywords_no_state_change (folder : List Char) :
    read_keywords [] folder = ([Effect.logWarning], Except.ok none) := rfl

/-- C10: a fresh workbook has all cells strictly below `row_count` (= 1);
and on any workbook with that invariant a successful `write_data_row` puts
all four cells of the new data row at the pre-call `row_count` (≥ row 1,
distinct from every previously written cell's row, so nothing is
overwritten), increments `row_count` by exactly 1, and preserves the
invariant — hence successive successful calls occupy consecutive rows. -/
theorem C10_rows_consecutive_no_overwrite :
    (∀ dir : List Char, RowsBelowCount (mkTosshinExcel dir).2 ∧
      (mkTosshinExcel dir).2.row_count = 1) ∧
    (∀ (wb : Workbook) (data : TosshinDict), RowsBelowCount wb →
      (MyTosshinExcel.write_data_row wb data true).2 =
        Except.ok { wb with
          cells := (wb.cells ++ dataRowCells wb.row_count data),
          row_count := wb.row_count + 1 } ∧
      (∀ c ∈ dataRowCells wb.row_count data, c.row = wb.row_count) ∧
      (∀ c ∈ wb.cells, c.row ≠ wb.row_count) ∧
      RowsBelowCount { wb with
        cells := (wb.cells ++ dataRowCells wb.row_count data),
        row_count := wb.row_count + 1 }) := by
  constructor
  · intro _dir
    constructor
    · intro c hc
      have h0 := write_row_cells_row 0 0 get_enum_headers_row c hc
      rw [h0]
      exact Nat.one_pos
    · rfl
  · intro wb data h
    refine ⟨?_, ?_, ?_, ?_⟩
    · rw [write_data_row_true]
    · intro c hc
      simp only [dataRowCells, List.mem_cons, List.not_mem_nil, or_false] at hc
      rcases hc with rfl | rfl | rfl | rfl <;> rfl
    · intro c hc
      exact Nat.ne_of_lt (h c hc)
    · intro c hc
      simp only [List.mem_append] at hc
      rcases hc with hc | hc
      · exact Nat.lt_succ_of_lt (h c hc)
      · have : c.row = wb.row_count := by
          simp only [dataRowCells, List.mem_cons, List.not_mem_nil, or_false] at hc
          rcases hc with rfl | rfl | rfl | rfl <;> rfl
        rw [this]
        exact Nat.lt_succ_self _

theorem C10_rows_witness :
    (MyTosshinExcel.write_data_row (mkTosshinExcel (("o").data)).2
        (fetchDictFound ⟨("m").data, ("w").data, ("p").data⟩ (("k").data)) true).2 =
      Except.ok { (mkTosshinExcel (("o").data)).2 with
        cells := ((mkTosshinExcel (("o").data)).2.cells ++
          dataRowCells (mkTosshinExcel (("o").data)).2.row_count
            (fetchDictFound ⟨("m").data, ("w").data, ("p").data⟩ (("k").data))),
        row_count := (mkTosshinExcel (("o").data)).2.row_count + 1 } :=
  (C10_rows_consecutive_no_overwrite.2 (mkTosshinExcel (("o").data)).2
    (fetchDictFound ⟨("m").data, ("w").data, ("p").data⟩ (("k").data))
    (by decide)).1

end Tosshin
